import Mathlib

/-!
Shallow embedding of `src/trading_simulator.py` (class `TradingSimulator`).

Modelling conventions:
  * Python `int` is `ℤ`; Python real arithmetic (float division, `random.uniform`
    draws) is modelled exactly over `ℚ`.
  * Python's `int(x)` conversion truncates toward zero: `pyInt`.
  * Python's floor division `//` is `Int.fdiv`, and `%` is `Int.fmod`.
  * The random draw `random.uniform(a, b)` is modelled as an arbitrary rational
    `u` constrained by `validMult`, which records the branch-dependent range
    `[0.75, 1.1]` / `[0.9, 1.25]` chosen in `number_generator`.
  * Fallible operations (a failing `assert`, a `ZeroDivisionError`, a numpy
    `IndexError` on a single-row write) become `Option`-valued functions
    returning `none` at exactly the inputs where the Python raises.
-/

/-- Python's `int(x)` conversion on a real number: truncation toward zero. -/
def pyInt (q : ℚ) : ℤ :=
  if 0 ≤ q then ⌊q⌋ else ⌈q⌉

theorem pyInt_of_nonneg {q : ℚ} (h : 0 ≤ q) : pyInt q = ⌊q⌋ := if_pos h

/-- Lower end of the uniform range drawn in `number_generator`
(`0.75` when `previous_value > expected_value`, else `0.9`). -/
def multiplierLo (previous_value expected_value : ℤ) : ℚ :=
  if previous_value > expected_value then 3/4 else 9/10

/-- Upper end of the uniform range drawn in `number_generator`
(`1.1` when `previous_value > expected_value`, else `1.25`). -/
def multiplierHi (previous_value expected_value : ℤ) : ℚ :=
  if previous_value > expected_value then 11/10 else 5/4

/-- `u` is a value `random.uniform` can return in the branch of
`number_generator` selected by `previous_value > expected_value`. -/
def validMult (previous_value expected_value : ℤ) (u : ℚ) : Prop :=
  multiplierLo previous_value expected_value ≤ u ∧
    u ≤ multiplierHi previous_value expected_value

instance (p e : ℤ) (u : ℚ) : Decidable (validMult p e u) :=
  inferInstanceAs (Decidable (_ ∧ _))

/-- `TradingSimulator.number_generator` (src lines 135-142): both branches
compute `int(previous_value * u)`; they differ only in the distribution of the
draw `u`, which is recorded by `validMult`. -/
def number_generator (previous_value expected_value : ℤ) (u : ℚ) : ℤ :=
  if previous_value > expected_value then pyInt (previous_value * u)
  else pyInt (previous_value * u)

set_option linter.unusedVariables false in
/-- `TradingSimulator.get_expected_value` (src lines 144-146): `int(4.5 * 10)`,
ignoring both arguments. -/
def get_expected_value (n_max n_min : ℤ) : ℤ := 45

/-- Constructor arguments of `TradingSimulator.__init__`
(`image_shape` split into height and width). -/
structure Config where
  n_max : ℤ
  n_min : ℤ
  n_ticks : ℤ
  t_update : ℚ
  image_height : ℤ
  image_width : ℤ
  show_expected_value_line : Bool
  deriving DecidableEq, Repr

/-- The state a successfully constructed `TradingSimulator` holds
(`self.*` fields set in `__init__`; `self.trades` lives in the loop state). -/
structure Sim where
  n_max : ℤ
  n_min : ℤ
  n_ticks : ℤ
  t_update : ℚ
  image_height : ℤ
  image_width : ℤ
  show_expected_value_line : Bool
  possible_range : ℤ
  expected_value : ℤ
  BAR_WIDTH : ℤ
  BAR_HEIGHT_MULTIPLIER : ℚ
  deriving DecidableEq, Repr

/-- `TradingSimulator.__init__` (src lines 44-60).  Returns `none` exactly when
construction raises, in source order:
  * `self.BAR_WIDTH = self.image_shape[1] // self.n_ticks` raises
    `ZeroDivisionError` when `n_ticks = 0`;
  * `self.BAR_HEIGHT_MULTIPLIER = self.image_shape[0] / self.possible_range`
    raises `ZeroDivisionError` when `possible_range = 9 * (n_max - n_min) = 0`;
  * `assert self.image_shape[1] % self.n_ticks == 0` fails when the width is
    not divisible by `n_ticks`. -/
def init (c : Config) : Option Sim :=
  let possible_range := 9 * (c.n_max - c.n_min)
  let expected_value := get_expected_value c.n_max c.n_min
  if c.n_ticks = 0 then none
  else
    let bw := Int.fdiv c.image_width c.n_ticks
    if possible_range = 0 then none
    else
      let bhm : ℚ := (c.image_height : ℚ) / (possible_range : ℚ)
      if Int.fmod c.image_width c.n_ticks ≠ 0 then none
      else some
        { n_max := c.n_max
          n_min := c.n_min
          n_ticks := c.n_ticks
          t_update := c.t_update
          image_height := c.image_height
          image_width := c.image_width
          show_expected_value_line := c.show_expected_value_line
          possible_range := possible_range
          expected_value := expected_value
          BAR_WIDTH := bw
          BAR_HEIGHT_MULTIPLIER := bhm }

/-- One pixel of the BGR image buffer (`np.zeros((..., 3))`): three channels. -/
abbrev Pixel : Type := ℤ × ℤ × ℤ

/-- A pixel-column of the image: the rendered `next_col` is uniform across its
`BAR_WIDTH` physical columns, so one `List Pixel` of length `image_height`
represents it. The image buffer itself is a list of such pixel-columns. -/
abbrev PixelCol : Type := List Pixel

/-- numpy single-row assignment `col[i] = p`: a negative index wraps once from
the end; an index outside `[-len, len)` raises `IndexError` (`none`). -/
def setPy (col : PixelCol) (i : ℤ) (p : Pixel) : Option PixelCol :=
  if 0 ≤ i ∧ i < (col.length : ℤ) then some (col.set i.toNat p)
  else if -(col.length : ℤ) ≤ i ∧ i < 0 then
    some (col.set ((col.length : ℤ) + i).toNat p)
  else none

/-- Python slice-bound normalisation for a sequence of length `len`: a negative
bound wraps once from the end and is clamped at 0; a bound past the end is
clamped at `len`. Slice assignment never raises. -/
def sliceIndex (len : ℕ) (i : ℤ) : ℕ :=
  if i < 0 then (max 0 ((len : ℤ) + i)).toNat else min i.toNat len

/-- Overwrite rows `lo ≤ j < hi` of a column with `p` (row indices counted
from the head; the bounds shift down by one at each step). -/
def setRows : PixelCol → ℕ → ℕ → Pixel → PixelCol
  | [], _, _, _ => []
  | x :: xs, lo, hi, p =>
      (if lo = 0 ∧ 0 < hi then p else x) :: setRows xs (lo - 1) (hi - 1) p

/-- numpy slice-row assignment `col[a:b] = p` (never raises). -/
def setRangePy (col : PixelCol) (a b : ℤ) (p : Pixel) : PixelCol :=
  setRows col (sliceIndex col.length a) (sliceIndex col.length b) p

/-- The body of `TradingSimulator.update` that renders `next_col`
(src lines 154-177), as one pixel-column of height `image_height`:
  * start from `np.zeros`: all-black;
  * `colour` is green `(0,255,0)` if `bought` else red `(0,0,255)` (only read
    when `bought or sold`);
  * if `show_expected_value_line`: row `int(expected_value * BAR_HEIGHT_MULTIPLIER)`
    becomes blue `(255,0,0)` — a single-row write that can raise;
  * if `bought or sold`: a slice of rows between the expected-value row and
    `int((next_val - 1) * BAR_HEIGHT_MULTIPLIER)` becomes `colour`;
  * row `int(BAR_HEIGHT_MULTIPLIER * next_val)` becomes white `(255,255,255)` —
    a single-row write that can raise. -/
def render_column (s : Sim) (next_val : ℤ) (bought sold : Bool) : Option PixelCol :=
  let col0 : PixelCol := List.replicate s.image_height.toNat (0, 0, 0)
  let colour : Pixel := if bought then (0, 255, 0) else (0, 0, 255)
  let expectedRow : ℤ := pyInt (s.expected_value * s.BAR_HEIGHT_MULTIPLIER)
  let step1 : Option PixelCol :=
    if s.show_expected_value_line then setPy col0 expectedRow (255, 0, 0)
    else some col0
  step1.bind (fun c1 =>
    let c2 : PixelCol :=
      if bought || sold then
        if next_val > s.expected_value then
          setRangePy c1 expectedRow (pyInt ((next_val - 1) * s.BAR_HEIGHT_MULTIPLIER)) colour
        else
          setRangePy c1 (pyInt ((next_val - 1) * s.BAR_HEIGHT_MULTIPLIER)) expectedRow colour
      else c1
    setPy c2 (pyInt (s.BAR_HEIGHT_MULTIPLIER * next_val)) (255, 255, 255))

/-- The scroll step of `TradingSimulator.update` (src lines 179-181):
`np.delete(img, np.s_[:BAR_WIDTH], axis=1)` drops the leftmost `BAR_WIDTH`
pixel-columns, then `np.concatenate((img, next_col), axis=1)` appends the new
column's `BAR_WIDTH` identical pixel-columns on the right. -/
def append_and_scroll (s : Sim) (img : List PixelCol) (col : PixelCol) : List PixelCol :=
  img.drop s.BAR_WIDTH.toNat ++ List.replicate s.BAR_WIDTH.toNat col

/-- `TradingSimulator.update` (src lines 148-181): render the new column, then
scroll. `none` when a single-row write in the rendering raises `IndexError`. -/
def update (s : Sim) (img : List PixelCol) (next_val : ℤ) (bought sold : Bool) :
    Option (List PixelCol) :=
  (render_column s next_val bought sold).map (append_and_scroll s img)

/-- The row index at which `update` draws the current-value pixel
(src line 177): `int(BAR_HEIGHT_MULTIPLIER * next_val)`. -/
def rowIndex (s : Sim) (next_val : ℤ) : ℤ :=
  pyInt (s.BAR_HEIGHT_MULTIPLIER * next_val)

/-- The current-value row write stays inside the column of height
`image_height` (no wrap-around, no `IndexError`). -/
def rowWriteInBounds (s : Sim) (next_val : ℤ) : Prop :=
  0 ≤ rowIndex s next_val ∧ rowIndex s next_val < s.image_height

/-- A record of `self.trades` (src lines 102-105):
`{"buy": mean_bought_position, "sell": next_val}`. -/
structure Trade where
  buy : ℚ
  sell : ℤ
  deriving DecidableEq, Repr

/-- The logical keys the loop dispatches on (src lines 76-116): ESC, `c`, `v`,
`s`, `q`, or anything else (including "no key pressed"). -/
inductive Key where
  | esc | c | v | s | q | other
  deriving DecidableEq, Repr

/-- The messages the loop prints while dispatching a key. -/
inductive Msg where
  | bought (v : ℤ)
  | noShares
  | sold (v : ℤ) (profit : ℚ) (buyAvg : ℚ)
  | position (avg : ℚ)
  | help
  deriving DecidableEq, Repr

/-- The mutable state of the `__call__` loop: `run_simulator`,
`bought_position`, `self.trades`, `transaction_made_in_tick`, `img`, and the
current `next_val`. -/
structure LoopState where
  run_simulator : Bool
  bought_position : Option (List ℤ)
  trades : List Trade
  transaction_made_in_tick : Bool
  img : List PixelCol
  next_val : ℤ
  deriving DecidableEq, Repr

/-- `np.mean` of a list of integers, as an exact rational. -/
def mean (xs : List ℤ) : ℚ :=
  (xs.sum : ℚ) / (xs.length : ℚ)

/-- The keystroke dispatch of one loop iteration (src lines 76-116), mirroring
the `elif` chain in order:
  * ESC: stop the simulator (break);
  * `c` with the transaction flag clear: append `next_val` to
    `bought_position` (creating it if `None`), render a bought column, set the
    flag, print `Bought at`;
  * `v` with no position and the flag clear: print `No bought shares.` only;
  * `v` with the flag clear: render a sold column, print the profit
    `mean(bought_position) - next_val`, append the trade record, clear the
    position, set the flag;
  * `s`: print the position status — `np.mean(bought_position)` if a position
    is open, else the sentinel `0`;
  * `q`: print the help text;
  * anything else: no effect.
`none` when a rendered column raises (the Python process dies there). -/
def dispatch (s : Sim) (st : LoopState) (k : Key) : Option (LoopState × List Msg) :=
  if k = Key.esc then
    some ({ st with run_simulator := false }, [])
  else if k = Key.c ∧ st.transaction_made_in_tick = false then
    let pos := match st.bought_position with
      | none => [st.next_val]
      | some xs => xs ++ [st.next_val]
    (update s st.img st.next_val true false).map (fun img =>
      ({ st with bought_position := some pos, img := img,
                 transaction_made_in_tick := true },
       [Msg.bought st.next_val]))
  else if k = Key.v ∧ st.bought_position = none ∧ st.transaction_made_in_tick = false then
    some (st, [Msg.noShares])
  else if k = Key.v ∧ st.transaction_made_in_tick = false then
    (update s st.img st.next_val false true).map (fun img =>
      let avg := mean (st.bought_position.getD [])
      ({ st with bought_position := none,
                 trades := st.trades ++ [⟨avg, st.next_val⟩],
                 img := img, transaction_made_in_tick := true },
       [Msg.sold st.next_val (avg - (st.next_val : ℚ)) avg]))
  else if k = Key.s then
    some (st, [Msg.position (match st.bought_position with
      | some xs => mean xs
      | none => 0)])
  else if k = Key.q then
    some (st, [Msg.help])
  else
    some (st, [])

/-- The tick gate (src lines 118-125), at an iteration where the elapsed
wall-clock time exceeds `t_update`: if no transaction was made in the tick,
render a neutral column; in either case reset the transaction flag. -/
def tick (s : Sim) (st : LoopState) : Option LoopState :=
  if st.transaction_made_in_tick then
    some { st with transaction_made_in_tick := false }
  else
    (update s st.img st.next_val false false).map
      (fun img => { st with img := img, transaction_made_in_tick := false })

/-- The price values the loop's `next_val` can take (src lines 65 and 71-72):
it starts at `expected_value` and each iteration advances by
`number_generator` with some multiplier the generator may draw. -/
inductive ReachableVal (s : Sim) : ℤ → Prop where
  | start : ReachableVal s s.expected_value
  | step (p : ℤ) (u : ℚ) : ReachableVal s p → validMult p s.expected_value u →
      ReachableVal s (number_generator p s.expected_value u)

/-- The default configuration of `__init__`:
`n_max = 10`, `n_min = 0`, `n_ticks = 100`, `t_update = 0.02`,
`image_shape = (250, 1000)`, `show_expected_value_line = True`. -/
def defaultConfig : Config :=
  { n_max := 10, n_min := 0, n_ticks := 100, t_update := 1/50
    image_height := 250, image_width := 1000, show_expected_value_line := true }

/-- The simulator state produced by constructing with `defaultConfig`. -/
def simDefault : Sim :=
  { n_max := 10, n_min := 0, n_ticks := 100, t_update := 1/50
    image_height := 250, image_width := 1000, show_expected_value_line := true
    possible_range := 90, expected_value := 45
    BAR_WIDTH := 10, BAR_HEIGHT_MULTIPLIER := 25/9 }

theorem init_defaultConfig : init defaultConfig = some simDefault := by
  norm_num [init, defaultConfig, simDefault, get_expected_value,
    show Int.fdiv 1000 100 = 10 from by decide,
    show Int.fmod 1000 100 = 0 from by decide]

/-- A minimal valid configuration used for concrete runs:
`n_max = 6`, `n_min = 0` (so `possible_range = 54 > 45` and the expected-value
row fits), one tick, a 1×1 image. -/
def tinyConfig : Config :=
  { n_max := 6, n_min := 0, n_ticks := 1, t_update := 1/50
    image_height := 1, image_width := 1, show_expected_value_line := true }

/-- The simulator state produced by constructing with `tinyConfig`. -/
def simTiny : Sim :=
  { n_max := 6, n_min := 0, n_ticks := 1, t_update := 1/50
    image_height := 1, image_width := 1, show_expected_value_line := true
    possible_range := 54, expected_value := 45
    BAR_WIDTH := 1, BAR_HEIGHT_MULTIPLIER := 1/54 }

theorem init_tinyConfig : init tinyConfig = some simTiny := by
  norm_num [init, tinyConfig, simTiny, get_expected_value,
    show Int.fdiv 1 1 = 1 from by decide,
    show Int.fmod 1 1 = 0 from by decide]

/-- Both branches of `number_generator` compute `int(previous * u)`; only the
distribution of the draw `u` differs. -/
theorem number_generator_eq (p e : ℤ) (u : ℚ) :
    number_generator p e u = pyInt ((p : ℚ) * u) := by
  unfold number_generator
  split <;> rfl

/-- Any multiplier the generator may draw lies in `[3/4, 5/4]`. -/
theorem validMult_bounds {p e : ℤ} {u : ℚ} (hu : validMult p e u) :
    (3/4 : ℚ) ≤ u ∧ u ≤ 5/4 := by
  obtain ⟨hlo, hhi⟩ := hu
  unfold multiplierLo at hlo
  unfold multiplierHi at hhi
  constructor
  · split at hlo <;> linarith
  · split at hhi <;> linarith

example : number_generator 45 45 (5/4) = 56 := by
  norm_num [number_generator, pyInt]
example : number_generator 88 45 (11/10) = 96 := by
  norm_num [number_generator, pyInt]
example : pyInt (-27/10) = -2 := by
  rw [pyInt, if_neg (by norm_num), show ((-27 : ℚ)/10) = -(27/10) by norm_num,
    Int.ceil_neg]
  norm_num

set_option linter.unusedVariables false in
/-- C1: for every previous value `≥ 0`, every reference value `≥ 0`, and every
multiplier the generator may draw (uniform in `[0.75, 1.10]` when
`previous > reference`, uniform in `[0.90, 1.25]` otherwise),
`number_generator previous reference` returns a non-negative integer that is
at least `⌊previous * 0.75⌋` and at most `previous * 1.25`. -/
theorem number_generator_bounds (p e : ℤ) (u : ℚ) (hp : 0 ≤ p) (he : 0 ≤ e)
    (hu : validMult p e u) :
    0 ≤ number_generator p e u ∧
      ⌊(p : ℚ) * (3/4)⌋ ≤ number_generator p e u ∧
      (number_generator p e u : ℚ) ≤ (p : ℚ) * (5/4) := by
  obtain ⟨hlo, hhi⟩ := validMult_bounds hu
  have hp' : (0 : ℚ) ≤ (p : ℚ) := by exact_mod_cast hp
  have hu0 : (0 : ℚ) ≤ u := le_trans (by norm_num) hlo
  have hpu : (0 : ℚ) ≤ (p : ℚ) * u := mul_nonneg hp' hu0
  rw [number_generator_eq, pyInt_of_nonneg hpu]
  refine ⟨?_, ?_, ?_⟩
  · exact_mod_cast Int.le_floor.mpr (by exact_mod_cast hpu)
  · exact Int.floor_le_floor (mul_le_mul_of_nonneg_left hlo hp')
  · exact le_trans (Int.floor_le _) (mul_le_mul_of_nonneg_left hhi hp')

theorem number_generator_bounds_witness :
    0 ≤ number_generator 4 2 1 ∧
      ⌊(4 : ℚ) * (3/4)⌋ ≤ number_generator 4 2 1 ∧
      (number_generator 4 2 1 : ℚ) ≤ (4 : ℚ) * (5/4) :=
  number_generator_bounds 4 2 1 (by norm_num) (by norm_num)
    (by norm_num [validMult, multiplierLo, multiplierHi])

set_option linter.unusedVariables false in
/-- C8: for every reference value and every multiplier the generator may draw,
`number_generator 0 reference = 0`: zero is an absorbing state of the price
process. -/
theorem number_generator_zero_absorbing (e : ℤ) (u : ℚ)
    (hu : validMult 0 e u) : number_generator 0 e u = 0 := by
  rw [number_generator_eq]
  norm_num [pyInt]

theorem number_generator_zero_absorbing_witness : number_generator 0 0 1 = 0 :=
  number_generator_zero_absorbing 0 1
    (by norm_num [validMult, multiplierLo, multiplierHi])

/-- C9: for every previous value in `{0, 1, 2, 3}`, every reference value, and
every multiplier the generator may draw (at most `1.25`), the next value is at
most the previous one; hence `price < 4` is preserved by every step of the
price process — once below 4 the price can never increase again. -/
theorem number_generator_below_four_trap (p e : ℤ) (u : ℚ) (hp : 0 ≤ p)
    (hp4 : p < 4) (hu : validMult p e u) :
    number_generator p e u ≤ p ∧ number_generator p e u < 4 := by
  obtain ⟨hlo, hhi⟩ := validMult_bounds hu
  have hp' : (0 : ℚ) ≤ (p : ℚ) := by exact_mod_cast hp
  have hp3 : (p : ℚ) ≤ 3 := by exact_mod_cast Int.lt_add_one_iff.mp hp4
  have hu0 : (0 : ℚ) ≤ u := le_trans (by norm_num) hlo
  have hpu : (0 : ℚ) ≤ (p : ℚ) * u := mul_nonneg hp' hu0
  have hlt : (p : ℚ) * u < ((p + 1 : ℤ) : ℚ) := by
    have h1 : (p : ℚ) * u ≤ (p : ℚ) * (5/4) := mul_le_mul_of_nonneg_left hhi hp'
    push_cast
    nlinarith
  have hle : number_generator p e u ≤ p := by
    rw [number_generator_eq, pyInt_of_nonneg hpu]
    exact Int.lt_add_one_iff.mp (Int.floor_lt.mpr hlt)
  exact ⟨hle, lt_of_le_of_lt hle hp4⟩

theorem number_generator_below_four_trap_witness :
    number_generator 3 0 1 ≤ 3 ∧ number_generator 3 0 1 < 4 :=
  number_generator_below_four_trap 3 0 1 (by norm_num) (by norm_num)
    (by norm_num [validMult, multiplierLo, multiplierHi])

/-- A configuration with `n_max = n_min` (zero `possible_range`) but a width
evenly divisible by `n_ticks`. -/
def zeroRangeConfig : Config :=
  { n_max := 0, n_min := 0, n_ticks := 100, t_update := 1/50
    image_height := 250, image_width := 1000, show_expected_value_line := true }

/-- C2 counterexample: for `zeroRangeConfig` the divisibility
`image_width % n_ticks == 0` holds, yet construction still fails — the
float division `image_shape[0] / self.possible_range` raises
`ZeroDivisionError` because `possible_range = 9 * (n_max - n_min) = 0`. -/
theorem init_fails_despite_divisibility :
    Int.fmod zeroRangeConfig.image_width zeroRangeConfig.n_ticks = 0 ∧
      init zeroRangeConfig = none := by
  constructor
  · decide
  · norm_num [init, zeroRangeConfig]

/-- C2 amended: construction succeeds iff `n_ticks ≠ 0` (else the floor
division `image_width // n_ticks` raises), `n_max ≠ n_min` (else the division
by `possible_range` raises), and `image_width % n_ticks = 0` (else the assert
fails). -/
theorem init_isSome_iff (c : Config) :
    (init c).isSome ↔
      c.n_ticks ≠ 0 ∧ c.n_max ≠ c.n_min ∧
        Int.fmod c.image_width c.n_ticks = 0 := by
  have h9 : (9 : ℤ) * (c.n_max - c.n_min) = 0 ↔ c.n_max = c.n_min := by
    constructor
    · intro h
      rcases mul_eq_zero.mp h with h | h
      · norm_num at h
      · exact sub_eq_zero.mp h
    · intro h
      rw [h]
      ring
  unfold init
  split_ifs <;>
    simp_all

/-- C3: in any state with no open position and the transaction flag clear, a
sell keystroke reports "No bought shares.", changes nothing, and a subsequent
status keystroke still reports the flat sentinel `0`. -/
theorem sell_without_position_no_mutation (s : Sim) (st : LoopState)
    (hpos : st.bought_position = none)
    (hflag : st.transaction_made_in_tick = false) :
    dispatch s st Key.v = some (st, [Msg.noShares]) ∧
      dispatch s st Key.s = some (st, [Msg.position 0]) := by
  constructor <;> simp [dispatch, hpos, hflag]

theorem sell_without_position_no_mutation_witness :
    dispatch simTiny
        { run_simulator := true, bought_position := none, trades := [],
          transaction_made_in_tick := false, img := [], next_val := 45 }
        Key.v =
      some ({ run_simulator := true, bought_position := none, trades := [],
              transaction_made_in_tick := false, img := [], next_val := 45 },
            [Msg.noShares]) ∧
    dispatch simTiny
        { run_simulator := true, bought_position := none, trades := [],
          transaction_made_in_tick := false, img := [], next_val := 45 }
        Key.s =
      some ({ run_simulator := true, bought_position := none, trades := [],
              transaction_made_in_tick := false, img := [], next_val := 45 },
            [Msg.position 0]) :=
  sell_without_position_no_mutation simTiny _ rfl rfl

/-- C6: in any state whose transaction flag is set (a buy or sell was already
committed in the current tick window), a further buy or sell keystroke is
ignored entirely — no ledger mutation, no trade record, no column rendered,
not even a message — and the flag stays set until the tick gate, which is the
operation that resets it. -/
theorem transaction_flag_gates_second_transaction (s : Sim) (st : LoopState)
    (hflag : st.transaction_made_in_tick = true) :
    dispatch s st Key.c = some (st, []) ∧
      dispatch s st Key.v = some (st, []) ∧
      tick s st = some { st with transaction_made_in_tick := false } := by
  refine ⟨?_, ?_, ?_⟩ <;> simp [dispatch, tick, hflag]

theorem transaction_flag_gates_second_transaction_witness :
    dispatch simTiny
        { run_simulator := true, bought_position := some [5], trades := [],
          transaction_made_in_tick := true, img := [], next_val := 7 }
        Key.c =
      some ({ run_simulator := true, bought_position := some [5], trades := [],
              transaction_made_in_tick := true, img := [], next_val := 7 }, []) ∧
    dispatch simTiny
        { run_simulator := true, bought_position := some [5], trades := [],
          transaction_made_in_tick := true, img := [], next_val := 7 }
        Key.v =
      some ({ run_simulator := true, bought_position := some [5], trades := [],
              transaction_made_in_tick := true, img := [], next_val := 7 }, []) ∧
    tick simTiny
        { run_simulator := true, bought_position := some [5], trades := [],
          transaction_made_in_tick := true, img := [], next_val := 7 } =
      some { run_simulator := true, bought_position := some [5], trades := [],
             transaction_made_in_tick := false, img := [], next_val := 7 } :=
  transaction_flag_gates_second_transaction simTiny _ rfl

/-- C4: buy(5), buy(7), sell(10) from an empty ledger — scripted on `simTiny`
as the chain buy-keystroke at 5, tick gate, buy-keystroke at 7, tick gate,
sell-keystroke at 10, status keystroke (each state feeding the next, with
`next_val` the value the generator produced at that iteration) — yields
average cost basis 6, profit signal `6 − 10 = −4`, exactly the trade record
`{buy: 6, sell: 10}`, a cleared open position, and a subsequent status
reporting the flat sentinel `0`. -/
theorem buy_buy_sell_ledger :
    dispatch simTiny
        { run_simulator := true, bought_position := none, trades := [],
          transaction_made_in_tick := false, img := [], next_val := 5 }
        Key.c =
      some ({ run_simulator := true, bought_position := some [5], trades := [],
              transaction_made_in_tick := true, img := [[(255, 255, 255)]],
              next_val := 5 },
        [Msg.bought 5]) ∧
    tick simTiny
        { run_simulator := true, bought_position := some [5], trades := [],
          transaction_made_in_tick := true, img := [[(255, 255, 255)]],
          next_val := 5 } =
      some { run_simulator := true, bought_position := some [5], trades := [],
             transaction_made_in_tick := false, img := [[(255, 255, 255)]],
             next_val := 5 } ∧
    dispatch simTiny
        { run_simulator := true, bought_position := some [5], trades := [],
          transaction_made_in_tick := false, img := [[(255, 255, 255)]],
          next_val := 7 }
        Key.c =
      some ({ run_simulator := true, bought_position := some [5, 7], trades := [],
              transaction_made_in_tick := true, img := [[(255, 255, 255)]],
              next_val := 7 },
        [Msg.bought 7]) ∧
    tick simTiny
        { run_simulator := true, bought_position := some [5, 7], trades := [],
          transaction_made_in_tick := true, img := [[(255, 255, 255)]],
          next_val := 7 } =
      some { run_simulator := true, bought_position := some [5, 7], trades := [],
             transaction_made_in_tick := false, img := [[(255, 255, 255)]],
             next_val := 7 } ∧
    dispatch simTiny
        { run_simulator := true, bought_position := some [5, 7], trades := [],
          transaction_made_in_tick := false, img := [[(255, 255, 255)]],
          next_val := 10 }
        Key.v =
      some ({ run_simulator := true, bought_position := none,
              trades := [⟨6, 10⟩], transaction_made_in_tick := true,
              img := [[(255, 255, 255)]], next_val := 10 },
        [Msg.sold 10 (-4) 6]) ∧
    dispatch simTiny
        { run_simulator := true, bought_position := none,
          trades := [⟨6, 10⟩], transaction_made_in_tick := true,
          img := [[(255, 255, 255)]], next_val := 10 }
        Key.s =
      some ({ run_simulator := true, bought_position := none,
              trades := [⟨6, 10⟩], transaction_made_in_tick := true,
              img := [[(255, 255, 255)]], next_val := 10 },
        [Msg.position 0]) := by
  have h5 : render_column simTiny 5 true false = some [(255, 255, 255)] := by
    norm_num [render_column, setPy, setRangePy, setRows, sliceIndex, pyInt, simTiny]
  have h7 : render_column simTiny 7 true false = some [(255, 255, 255)] := by
    norm_num [render_column, setPy, setRangePy, setRows, sliceIndex, pyInt, simTiny]
  have h10 : render_column simTiny 10 false true = some [(255, 255, 255)] := by
    norm_num [render_column, setPy, setRangePy, setRows, sliceIndex, pyInt, simTiny]
  have hbw : simTiny.BAR_WIDTH = 1 := rfl
  refine ⟨?_, ?_, ?_, ?_, ?_, ?_⟩ <;>
    norm_num [dispatch, tick, update, append_and_scroll, mean, h5, h7, h10, hbw,
      show Key.c ≠ Key.esc from by decide, show Key.v ≠ Key.esc from by decide,
      show Key.v ≠ Key.c from by decide, show Key.s ≠ Key.esc from by decide,
      show Key.s ≠ Key.c from by decide, show Key.s ≠ Key.v from by decide,
      show (some [5, 7] : Option (List ℤ)) ≠ none from by decide]

/-- C5: starting from a buffer of the constructed width
(`n_ticks * BAR_WIDTH` pixel-columns), any sequence of `append_and_scroll`
calls — of any length, 1000 included — leaves the width unchanged. -/
theorem append_and_scroll_width_constant (s : Sim) (hticks : 1 ≤ s.n_ticks)
    (img : List PixelCol)
    (himg : img.length = (s.n_ticks * s.BAR_WIDTH).toNat)
    (cols : List PixelCol) :
    (cols.foldl (append_and_scroll s) img).length = img.length := by
  have hbw : s.BAR_WIDTH.toNat ≤ (s.n_ticks * s.BAR_WIDTH).toNat := by
    rcases le_or_lt s.BAR_WIDTH 0 with h | h
    · simp [Int.toNat_of_nonpos h]
    · exact Int.toNat_le_toNat (le_mul_of_one_le_left (le_of_lt h) hticks)
  suffices H : ∀ (cs : List PixelCol) (b : List PixelCol),
      b.length = (s.n_ticks * s.BAR_WIDTH).toNat →
      (cs.foldl (append_and_scroll s) b).length =
        (s.n_ticks * s.BAR_WIDTH).toNat by
    rw [H cols img himg, himg]
  intro cs
  induction cs with
  | nil =>
      intro b hb
      simpa using hb
  | cons c cs ih =>
      intro b hb
      rw [List.foldl_cons]
      apply ih
      simp only [append_and_scroll, List.length_append, List.length_drop,
        List.length_replicate]
      omega

theorem append_and_scroll_width_constant_witness :
    ((List.replicate 1000 ([] : PixelCol)).foldl (append_and_scroll simTiny)
        [[]]).length = ([[]] : List PixelCol).length :=
  append_and_scroll_width_constant simTiny (by decide) [[]] (by decide)
    (List.replicate 1000 [])

/-- A successful numpy single-row write preserves the column length. -/
theorem setPy_length {col : PixelCol} {i : ℤ} {p : Pixel} {c : PixelCol}
    (h : setPy col i p = some c) : c.length = col.length := by
  unfold setPy at h
  split_ifs at h
  · obtain rfl := Option.some.inj h
    simp
  · obtain rfl := Option.some.inj h
    simp

/-- `setRows` preserves the column length. -/
theorem setRows_length (col : PixelCol) (lo hi : ℕ) (p : Pixel) :
    (setRows col lo hi p).length = col.length := by
  induction col generalizing lo hi with
  | nil => rfl
  | cons x xs ih => simp [setRows, ih]

/-- A numpy slice-row write preserves the column length. -/
theorem setRangePy_length (col : PixelCol) (a b : ℤ) (p : Pixel) :
    (setRangePy col a b p).length = col.length := by
  unfold setRangePy
  exact setRows_length ..

/-- A successfully rendered column has exactly `image_height` rows. -/
theorem render_column_length {s : Sim} {v : ℤ} {b so : Bool} {col : PixelCol}
    (h : render_column s v b so = some col) :
    col.length = s.image_height.toNat := by
  simp only [render_column] at h
  rw [Option.bind_eq_some] at h
  obtain ⟨c1, hc1, hc2⟩ := h
  have hlen1 : c1.length = s.image_height.toNat := by
    split_ifs at hc1
    · exact (setPy_length hc1).trans (by simp)
    · obtain rfl := Option.some.inj hc1
      simp
  have h2 := setPy_length hc2
  rw [h2]
  split_ifs <;> simp [setRangePy_length, hlen1]

/-- C10: for a buffer whose pixel-columns all have the constructed height and
whose width is at least `BAR_WIDTH`, a successful `update` preserves width and
height, keeps the leftmost `width − BAR_WIDTH` pixel-columns exactly equal to
input pixel-columns `BAR_WIDTH .. width − 1`, and writes only the rightmost
`BAR_WIDTH` pixel-columns, all copies of the newly rendered column. -/
theorem update_frame (s : Sim) (img : List PixelCol) (v : ℤ) (b so : Bool)
    (img' : List PixelCol)
    (hH : ∀ col ∈ img, col.length = s.image_height.toNat)
    (hbw : s.BAR_WIDTH.toNat ≤ img.length)
    (hupd : update s img v b so = some img') :
    img'.length = img.length ∧
      img'.take (img.length - s.BAR_WIDTH.toNat) = img.drop s.BAR_WIDTH.toNat ∧
      img'.drop (img.length - s.BAR_WIDTH.toNat) =
        List.replicate s.BAR_WIDTH.toNat ((render_column s v b so).getD []) ∧
      ∀ col ∈ img', col.length = s.image_height.toNat := by
  unfold update at hupd
  rw [Option.map_eq_some'] at hupd
  obtain ⟨col, hcol, rfl⟩ := hupd
  have hlen := render_column_length hcol
  have hdrop : (img.drop s.BAR_WIDTH.toNat).length =
      img.length - s.BAR_WIDTH.toNat := List.length_drop ..
  refine ⟨?_, ?_, ?_, ?_⟩
  · simp only [append_and_scroll, List.length_append, List.length_drop,
      List.length_replicate]
    omega
  · exact List.take_left' hdrop
  · rw [append_and_scroll, List.drop_left' hdrop, hcol]
    rfl
  · intro c hc
    rcases List.mem_append.mp hc with h | h
    · exact hH c (List.mem_of_mem_drop h)
    · rw [List.eq_of_mem_replicate h]
      exact hlen

theorem update_frame_witness :
    (([[(255, 255, 255)]] : List PixelCol).length =
        ([[(0, 0, 0)]] : List PixelCol).length) ∧
      (([[(255, 255, 255)]] : List PixelCol).take
          (([[(0, 0, 0)]] : List PixelCol).length - simTiny.BAR_WIDTH.toNat) =
        ([[(0, 0, 0)]] : List PixelCol).drop simTiny.BAR_WIDTH.toNat) ∧
      (([[(255, 255, 255)]] : List PixelCol).drop
          (([[(0, 0, 0)]] : List PixelCol).length - simTiny.BAR_WIDTH.toNat) =
        List.replicate simTiny.BAR_WIDTH.toNat
          ((render_column simTiny 5 false false).getD [])) ∧
      ∀ col ∈ ([[(255, 255, 255)]] : List PixelCol),
        col.length = simTiny.image_height.toNat :=
  update_frame simTiny [[(0, 0, 0)]] 5 false false [[(255, 255, 255)]]
    (by decide) (by decide)
    (by norm_num [update, render_column, append_and_scroll, setPy, setRangePy,
      setRows, sliceIndex, pyInt, simTiny])

/-- C7 counterexample: the value 96 is reachable by the price process from the
start value `expected_value = 45` under the default configuration (via the
multiplier chain 1.25, 1.1, 1.1, 1.1, 1.1, 1.1, 1.1), yet the current-value
row write `int(BAR_HEIGHT_MULTIPLIER * 96) = 266` is out of bounds of the
column height 250: `update` raises `IndexError` there. -/
theorem rowWrite_out_of_bounds_reachable :
    ReachableVal simDefault 96 ∧ ¬ rowWriteInBounds simDefault 96 := by
  constructor
  · have hstep : ∀ p q : ℤ, ∀ u : ℚ, ReachableVal simDefault p →
        validMult p 45 u → number_generator p 45 u = q →
        ReachableVal simDefault q := by
      intro p q u hp hu hq
      have h := ReachableVal.step (s := simDefault) p u hp hu
      rwa [show simDefault.expected_value = 45 from rfl, hq] at h
    have h0 : ReachableVal simDefault 45 := ReachableVal.start
    have h1 := hstep 45 56 (5/4) h0
      (by norm_num [validMult, multiplierLo, multiplierHi])
      (by norm_num [number_generator, pyInt])
    have h2 := hstep 56 61 (11/10) h1
      (by norm_num [validMult, multiplierLo, multiplierHi])
      (by norm_num [number_generator, pyInt])
    have h3 := hstep 61 67 (11/10) h2
      (by norm_num [validMult, multiplierLo, multiplierHi])
      (by norm_num [number_generator, pyInt])
    have h4 := hstep 67 73 (11/10) h3
      (by norm_num [validMult, multiplierLo, multiplierHi])
      (by norm_num [number_generator, pyInt])
    have h5 := hstep 73 80 (11/10) h4
      (by norm_num [validMult, multiplierLo, multiplierHi])
      (by norm_num [number_generator, pyInt])
    have h6 := hstep 80 88 (11/10) h5
      (by norm_num [validMult, multiplierLo, multiplierHi])
      (by norm_num [number_generator, pyInt])
    exact hstep 88 96 (11/10) h6
      (by norm_num [validMult, multiplierLo, multiplierHi])
      (by norm_num [number_generator, pyInt])
  · norm_num [rowWriteInBounds, rowIndex, pyInt, simDefault]

/-- C7 amended: for a constructed simulator with positive image height and
positive `possible_range`, and a non-negative value, the current-value row
write is in bounds iff `value < possible_range`; the unclamped price series
can exceed `possible_range`, and there `update` fails. -/
theorem rowWriteInBounds_iff (c : Config) (s : Sim) (hinit : init c = some s)
    (hh : 0 < s.image_height) (hr : 0 < s.possible_range) (v : ℤ)
    (hv : 0 ≤ v) :
    rowWriteInBounds s v ↔ v < s.possible_range := by
  have hbhm : s.BAR_HEIGHT_MULTIPLIER =
      (s.image_height : ℚ) / (s.possible_range : ℚ) := by
    simp only [init] at hinit
    split_ifs at hinit
    obtain rfl := Option.some.inj hinit
    rfl
  have hh' : (0 : ℚ) < (s.image_height : ℚ) := by exact_mod_cast hh
  have hr' : (0 : ℚ) < (s.possible_range : ℚ) := by exact_mod_cast hr
  have hv' : (0 : ℚ) ≤ (v : ℚ) := by exact_mod_cast hv
  have hprod : (0 : ℚ) ≤ s.BAR_HEIGHT_MULTIPLIER * v := by
    rw [hbhm]
    positivity
  unfold rowWriteInBounds rowIndex
  rw [pyInt_of_nonneg hprod]
  have hnonneg : 0 ≤ ⌊s.BAR_HEIGHT_MULTIPLIER * (v : ℚ)⌋ :=
    Int.le_floor.mpr (by exact_mod_cast hprod)
  constructor
  · rintro ⟨-, hlt⟩
    have : s.BAR_HEIGHT_MULTIPLIER * (v : ℚ) < (s.image_height : ℚ) := by
      exact_mod_cast Int.floor_lt.mp hlt
    rw [hbhm, div_mul_eq_mul_div, div_lt_iff₀ hr'] at this
    have := lt_of_mul_lt_mul_left this (le_of_lt hh')
    exact_mod_cast this
  · intro hvr
    refine ⟨hnonneg, ?_⟩
    rw [Int.floor_lt, hbhm, div_mul_eq_mul_div, div_lt_iff₀ hr']
    have hvr' : (v : ℚ) < (s.possible_range : ℚ) := by exact_mod_cast hvr
    exact mul_lt_mul_of_pos_left hvr' hh'

theorem rowWriteInBounds_iff_witness :
    rowWriteInBounds simDefault 0 ↔ (0 : ℤ) < simDefault.possible_range :=
  rowWriteInBounds_iff defaultConfig simDefault init_defaultConfig
    (by decide) (by decide) 0 (by decide)
